import Mathlib

/-!
Shallow embedding of the Oscilloscope DIM-server gateway
(src/dim_server): the thread-safe publishing buffers
(DimServices.cpp), the topic-routing and command-routing loop bodies
and `send_command` (ZMQCommunicator.cpp), the command handlers
(CommandHandlers.cpp), and the lifecycle `stop` (ZMQCommunicator.cpp).

Bytes of the C++ `char` buffers and `std::string` payloads are
modelled as `Char`; a C string is the portion of a byte list before
the first NUL byte.  The external libraries (DIM's `DimService`
notification, nlohmann::json's parser, ZeroMQ sockets) are
collaborators outside the repository: the embedding keeps their
observable effects (the decoded envelope fields, the list of
transmitted frames) as explicit data.
-/

namespace DimServer

/-- Constants from include/Constants.h used by the routing and
command-handling code. -/
def OSC_NUM_CHANNELS : Nat := 4

def WAVEFORM_BUFFER_SIZE : Nat := 130000

def STATE_BUFFER_SIZE : Nat := 256

/-- Size of the `char buffer[2048]` of ReplyService (DimServices.h). -/
def REPLY_BUFFER_SIZE : Nat := 2048

def ZMQ_STATE_TOPIC : List Char := "backend_state".data

def ZMQ_TIMEDIV_TOPIC : List Char := "waveform_timediv".data

def ZMQ_WAVEFORM_TOPIC_BASE : List Char := "waveform_ch".data

def PY_RAW_QUERY : List Char := "raw_query".data

def PY_RAW_WRITE : List Char := "raw_write".data

/-- The NUL byte terminating C strings. -/
def NUL : Char := '\x00'

/-- The bytes of a `std::string` seen through `.c_str()` by `strncpy`:
everything before the first NUL byte. -/
def cstr (s : List Char) : List Char := s.takeWhile (fun b => b != NUL)

/-- C `strncpy(dst, src, n)` acting on a destination buffer of fixed
length: the first `n` cells receive the bytes of `src` up to its first
NUL, padded with NUL bytes; the remaining cells keep their old
contents.  The result always has the length of `dst` — `strncpy`
itself never writes past `dst + n`. -/
def strncpy (dst src : List Char) (n : Nat) : List Char :=
  (((cstr src).take n ++ List.replicate (n - (cstr src).length) NUL)
      ++ dst.drop n).take dst.length

/-- ProtectedDimService::update (DimServices.cpp:11-19):
`strncpy(buffer.data(), new_data.c_str(), buffer.size() - 1)` followed
by `buffer.back() = '\0'`.  The `service.updateService()` call is the
external DIM notification and carries no buffer state. -/
def protectedUpdate (buffer new_data : List Char) : List Char :=
  (strncpy buffer new_data (buffer.length - 1)).set (buffer.length - 1) NUL

/-- ReplyService::update (DimServices.cpp:27-33):
`strncpy(buffer, new_reply.c_str(), sizeof(buffer))` followed by
`buffer[sizeof(buffer) - 1] = '\0'`. -/
def replyUpdate (buffer new_reply : List Char) : List Char :=
  (strncpy buffer new_reply buffer.length).set (buffer.length - 1) NUL

/-- The C-string content of a buffer, as the DIM service-export
mechanism reads it: the bytes before the first NUL. -/
def storedContent (buffer : List Char) : List Char :=
  buffer.takeWhile (fun b => b != NUL)

/-- The mutable state owned by one ZmqCommunicator together with the
ReplyService it is wired to (ZMQCommunicator.h:22,33-35,
DimServices.h:8): the client identity slot, the ReplyService buffer,
the two fixed telemetry buffers, the per-channel waveform buffers, the
stderr lines of the subscribe loop, and the frames transmitted on the
router socket. -/
structure GatewayState where
  python_client_id : List Char
  reply_buffer : List Char
  state_buffer : List Char
  timediv_buffer : List Char
  waveform_buffers : List (List Char)
  errLog : List (List Char)
  sent : List (List Char × List Char)
  deriving DecidableEq, Repr

/-- Whitespace bytes accepted by `std::isspace` in the default locale,
skipped by `std::stoi` before the number. -/
def isSpaceByte (ch : Char) : Bool :=
  ch = ' ' || ch = '\t' || ch = '\n' || ch = '\x0b' || ch = '\x0c' || ch = '\r'

def isDigitByte (ch : Char) : Bool := '0' ≤ ch && ch ≤ '9'

/-- Numeric value of a decimal digit byte. -/
def digitVal (ch : Char) : Nat := ch.toNat - 48

/-- Value of a run of decimal digit bytes, most significant first. -/
def digitsVal (ds : List Char) : Nat := ds.foldl (fun a ch => a * 10 + digitVal ch) 0

/-- C++ `std::stoi` (base 10) on the bytes of a `std::string`: skips
leading whitespace, accepts one optional sign, converts the longest
leading run of digits and ignores everything after it.  `none` models
the thrown `std::invalid_argument` (no digits at all) or
`std::out_of_range` (value outside the 32-bit `int` range). -/
def stoi (sIn : List Char) : Option Int :=
  let s1 := sIn.dropWhile isSpaceByte
  let signed : Int × List Char :=
    match s1 with
    | '+' :: t => (1, t)
    | '-' :: t => (-1, t)
    | _ => (1, s1)
  let ds := signed.2.takeWhile isDigitByte
  if ds = [] then none
  else
    let v : Int := signed.1 * (digitsVal ds : Nat)
    if v < -(2 ^ 31) || (2 ^ 31 - 1 : Int) < v then none else some v

/-- Stderr line of the subscribe loop on a caught exception
(ZMQCommunicator.cpp:131); the trailing `e.what()` text is
library-defined and elided, the offending topic is embedded verbatim
between the quotes. -/
def topicErrorLine (topic : List Char) : List Char :=
  "Error processing topic '".data ++ topic ++ "'".data

/-- Body of one received two-part frame `[topic, payload]` in
ZmqCommunicator::subscribe_loop (ZMQCommunicator.cpp:106-137): exact
match of the two fixed topics first, then the waveform-prefix rule
with `std::stoi` on the suffix and a bounds check on the zero-based
channel index. -/
def subscribeBody (st : GatewayState) (topic payload : List Char) : GatewayState :=
  if topic = ZMQ_STATE_TOPIC then
    { st with state_buffer := protectedUpdate st.state_buffer payload }
  else if topic = ZMQ_TIMEDIV_TOPIC then
    { st with timediv_buffer := protectedUpdate st.timediv_buffer payload }
  else if ZMQ_WAVEFORM_TOPIC_BASE.isPrefixOf topic then
    match stoi (topic.drop ZMQ_WAVEFORM_TOPIC_BASE.length) with
    | none => { st with errLog := st.errLog ++ [topicErrorLine topic] }
    | some v =>
      if 0 ≤ v - 1 ∧ v - 1 < (OSC_NUM_CHANNELS : Int) then
        { st with waveform_buffers := (st.waveform_buffers.set (v - 1).toNat
            (protectedUpdate (st.waveform_buffers.getD (v - 1).toNat []) payload)) }
      else st
  else st

/-- The subscribe loop over a sequence of received frames: nothing a
frame contains ends the loop (only the `running` flag does), so its
effect while running is the fold of `subscribeBody`. -/
def subscribeRun (st : GatewayState) (frames : List (List Char × List Char)) :
    GatewayState :=
  frames.foldl (fun acc f => subscribeBody acc f.1 f.2) st

/-- Decoded string fields of an inbound JSON envelope, as read through
`j.value(key, default)` by ZmqCommunicator::router_loop; `none` is an
absent field. -/
structure InEnvelope where
  type : Option (List Char) := none
  status : Option (List Char) := none
  payload : Option (List Char) := none
  message : Option (List Char) := none
  deriving DecidableEq, Repr

/-- `j.value(key, default)` of nlohmann::json for a string field. -/
def jvalue (field : Option (List Char)) (dflt : List Char) : List Char :=
  field.getD dflt

/-- Body of one received three-part frame `[identity, delimiter,
payload]` in ZmqCommunicator::router_loop (ZMQCommunicator.cpp:77-104):
the identity part replaces the stored client id before the payload is
examined; `decoded` is the outcome of `json::parse` on the payload
part, abstracted to the four string fields the loop reads (`none`
models the thrown `json::parse_error`, caught at line 98). -/
def routerBody (st : GatewayState) (identity : List Char)
    (decoded : Option InEnvelope) : GatewayState :=
  let st1 := { st with python_client_id := identity }
  match decoded with
  | none =>
    { st1 with reply_buffer :=
        replyUpdate st1.reply_buffer "Error: Malformed JSON from Python.".data }
  | some j =>
    if jvalue j.type [] = "handshake".data then st1
    else if jvalue j.type [] = "reply".data then
      if jvalue j.status [] = "ok".data then
        { st1 with reply_buffer :=
            replyUpdate st1.reply_buffer (jvalue j.payload "[empty]".data) }
      else
        { st1 with reply_buffer :=
            (replyUpdate st1.reply_buffer
              ("Error: ".data ++ jvalue j.message "[no msg]".data)) }
    else st1

/-- The router loop over a sequence of received frames: no frame
content ends the loop, so its effect while running is the fold of
`routerBody`. -/
def routerRun (st : GatewayState) (frames : List (List Char × Option InEnvelope)) :
    GatewayState :=
  frames.foldl (fun acc f => routerBody acc f.1 f.2) st

/-- ZmqCommunicator::send_command (ZMQCommunicator.cpp:65-75): with an
empty stored client identity it writes the not-connected error to
ReplyService and transmits nothing; otherwise it sends the three frame
parts `[identity, "", json]`, recorded here as one transmitted frame. -/
def sendCommand (st : GatewayState) (json_str : List Char) : GatewayState :=
  if st.python_client_id.length = 0 then
    { st with reply_buffer :=
        replyUpdate st.reply_buffer "Error: Python client not connected.".data }
  else
    { st with sent := st.sent ++ [(st.python_client_id, json_str)] }

/-- Decimal digit characters as produced by `std::to_string`. -/
def digitChar (d : Nat) : Char :=
  if d = 0 then '0' else if d = 1 then '1' else if d = 2 then '2'
  else if d = 3 then '3' else if d = 4 then '4' else if d = 5 then '5'
  else if d = 6 then '6' else if d = 7 then '7' else if d = 8 then '8' else '9'

/-- Digit extraction for `toDecimal`, structurally recursive on a fuel
bound so that it also reduces definitionally; any fuel above the value
gives the digits of `n`. -/
def toDecimalAux : Nat → Nat → List Char
  | 0, _ => []
  | fuel + 1, n =>
    if n < 10 then [digitChar n]
    else toDecimalAux fuel (n / 10) ++ [digitChar (n % 10)]

/-- `std::to_string` on a nonnegative integer: decimal digits, most
significant first, no sign, no leading zeros. -/
def toDecimal (n : Nat) : List Char := toDecimalAux (n + 1) n

/-- Outbound command envelope as assembled by the command handlers
(CommandHandlers.cpp) before `zmq_comm.send_command(j.dump())`: the
JSON object fields the handlers write.  `P` is the shape of the
`params` object. -/
structure Envelope (P : Type) where
  id : List Char
  type : Option (List Char)
  command : List Char
  params : P
  deriving DecidableEq, Repr

/-- FlexibleJsonCommand::commandHandler (CommandHandlers.cpp:16-24):
builds `id = python_command + "_" + std::to_string(command_counter++)`
from the per-command-object counter, sets `command`, and lets the
registered populator lambda fill `params`.  The populator is an
arbitrary `std::function` chosen at registration
(CommandRegistry.cpp), so its output is a parameter here.  The `long`
counter is modelled as `Nat`: overflow of a signed `long` counter is
C++ undefined behaviour and unreachable without 2^63 invocations. -/
def flexibleHandler {P : Type} (python_command : List Char) (populated : P)
    (counter : Nat) : Envelope P × Nat :=
  ({ id := python_command ++ '_' :: toDecimal counter,
     type := none,
     command := python_command,
     params := populated }, counter + 1)

/-- RawCommandService::commandHandler (CommandHandlers.cpp:30-43):
`id = "raw_cmd_" + std::to_string(command_counter++)`, always
`type = "command"`, and the query-marker rule: text containing `?`
goes out as `raw_query` with the text under `params.query`, otherwise
as `raw_write` with the text under `params.command`. -/
def rawHandler (cmd_text : List Char) (counter : Nat) :
    Envelope (List (List Char × List Char)) × Nat :=
  ({ id := "raw_cmd_".data ++ toDecimal counter,
     type := some "command".data,
     command := if '?' ∈ cmd_text then PY_RAW_QUERY else PY_RAW_WRITE,
     params := if '?' ∈ cmd_text then [("query".data, cmd_text)]
               else [("command".data, cmd_text)] }, counter + 1)

/-- Thread-lifecycle state of one ZmqCommunicator: the atomic
`running` flag and the joinability of the two loop threads (a C++
thread is joinable from `start` until joined). -/
structure LifecycleState where
  running : Bool
  router_joinable : Bool
  sub_joinable : Bool
  deriving DecidableEq, Repr

/-- ZmqCommunicator::stop (ZMQCommunicator.cpp:57-63): when `running`
is set it is cleared and each loop thread is joined if joinable;
otherwise nothing happens. -/
def stop (st : LifecycleState) : LifecycleState :=
  if st.running then
    { running := false,
      router_joinable := if st.router_joinable then false else st.router_joinable,
      sub_joinable := if st.sub_joinable then false else st.sub_joinable }
  else st

/-- ZmqCommunicator::~ZmqCommunicator (ZMQCommunicator.cpp:32-34):
the destructor just calls `stop()`. -/
def destructor (st : LifecycleState) : LifecycleState := stop st

/-- One field of a parsed JSON object as the router loop's
`j.value(key, default)` reads observe it: absent, a string, or present
with some non-string JSON type (number, boolean, null, array, nested
object). -/
inductive JsonField where
  | absent : JsonField
  | str : List Char → JsonField
  | other : JsonField
  deriving DecidableEq, Repr

/-- A parsed JSON object restricted to the four keys
ZmqCommunicator::router_loop reads. -/
structure JsonObject where
  type : JsonField := JsonField.absent
  status : JsonField := JsonField.absent
  payload : JsonField := JsonField.absent
  message : JsonField := JsonField.absent
  deriving DecidableEq, Repr

/-- A successfully parsed JSON document: an object (with the four read
fields abstracted), or any non-object JSON value (number, string,
array, boolean, null), on which every `j.value` call faults. -/
inductive JsonDoc where
  | obj : JsonObject → JsonDoc
  | nonObject : JsonDoc
  deriving DecidableEq, Repr

/-- `j.value(key, dflt)` of nlohmann::json over the full JSON domain:
the default when the key is absent, the string when the key holds a
string; `none` models the thrown `json::type_error` (error 306 when
the document is not an object, error 302 when the field is present
with a non-string type). -/
def jvalueDoc (doc : JsonDoc) (field : JsonObject → JsonField)
    (dflt : List Char) : Option (List Char) :=
  match doc with
  | JsonDoc.nonObject => none
  | JsonDoc.obj o =>
    match field o with
    | JsonField.absent => some dflt
    | JsonField.str s => some s
    | JsonField.other => none

/-- Body of one router_loop frame over the full JSON domain
(ZMQCommunicator.cpp:77-104).  The identity part replaces the stored
client id first, then the field reads run in source order (`type`,
then `status`, then `payload` or `message`).  `some` is the state
after a normally completed iteration; `none` is a `json::type_error`
escaping the `catch (const json::parse_error&)` at line 98, which
leaves the thread body and ends the process via `std::terminate` — no
further state is observable.  On documents whose read fields are
absent-or-string this agrees with `routerBody`
(`routerBodyJson_agrees` below). -/
def routerBodyJson (st : GatewayState) (identity : List Char)
    (decoded : Option JsonDoc) : Option GatewayState :=
  let st1 := { st with python_client_id := identity }
  match decoded with
  | none =>
    some { st1 with reply_buffer :=
            (replyUpdate st1.reply_buffer "Error: Malformed JSON from Python.".data) }
  | some doc =>
    match jvalueDoc doc JsonObject.type [] with
    | none => none
    | some ty =>
      if ty = "handshake".data then some st1
      else if ty = "reply".data then
        match jvalueDoc doc JsonObject.status [] with
        | none => none
        | some stt =>
          if stt = "ok".data then
            match jvalueDoc doc JsonObject.payload "[empty]".data with
            | none => none
            | some p =>
              some { st1 with reply_buffer := replyUpdate st1.reply_buffer p }
          else
            match jvalueDoc doc JsonObject.message "[no msg]".data with
            | none => none
            | some m =>
              some { st1 with reply_buffer :=
                  (replyUpdate st1.reply_buffer ("Error: ".data ++ m)) }
      else some st1

/-- The schema-conforming envelopes seen inside the full JSON domain:
an absent field stays absent, a present field is a string. -/
def strField : Option (List Char) → JsonField
  | none => JsonField.absent
  | some s => JsonField.str s

/-- The schema-conforming envelope `j` as a document of the full JSON
domain. -/
def InEnvelope.toDoc (j : InEnvelope) : JsonDoc :=
  JsonDoc.obj
    { type := strField j.type,
      status := strField j.status,
      payload := strField j.payload,
      message := strField j.message }

/-- A concrete small-capacity gateway state used to evaluate the
theorems on explicit inputs: empty identity, all buffers zeroed, no
log lines, nothing transmitted. -/
def sampleState : GatewayState where
  python_client_id := []
  reply_buffer := List.replicate 64 NUL
  state_buffer := List.replicate 16 NUL
  timediv_buffer := List.replicate 16 NUL
  waveform_buffers := [List.replicate 16 NUL, List.replicate 16 NUL,
    List.replicate 16 NUL, List.replicate 16 NUL]
  errLog := []
  sent := []

end DimServer

namespace DimServer

lemma all_bne_of_not_mem {p : List Char} (hp : NUL ∉ p) :
    ∀ a ∈ p, (a != NUL) = true := by
  intro a ha
  rw [bne_iff_ne]
  intro hEq
  exact hp (hEq ▸ ha)

lemma cstr_of_not_mem {s : List Char} (h : NUL ∉ s) : cstr s = s := by
  rw [cstr, List.takeWhile_eq_self_iff]
  exact all_bne_of_not_mem h

lemma protectedUpdate_eq (buffer new_data : List Char) (hc : 1 ≤ buffer.length) :
    protectedUpdate buffer new_data =
      (cstr new_data).take (buffer.length - 1)
        ++ List.replicate ((buffer.length - 1) - (cstr new_data).length) NUL
        ++ [NUL] := by
  set L := buffer.length with hL
  set s := cstr new_data with hs
  set n := L - 1 with hn
  have hW : (s.take n ++ List.replicate (n - s.length) NUL).length = n := by
    simp only [List.length_append, List.length_take, List.length_replicate]
    omega
  have hdroplen : (buffer.drop n).length = 1 := by
    simp only [List.length_drop, ← hL]
    omega
  obtain ⟨x, hx⟩ := List.length_eq_one.mp hdroplen
  have hlen : ((s.take n ++ List.replicate (n - s.length) NUL) ++ [x]).length ≤ n + 1 := by
    rw [List.length_append, hW]
    simp
  unfold protectedUpdate strncpy
  rw [← hs, ← hL, ← hn, hx]
  have hLn : L = n + 1 := by omega
  rw [hLn, List.take_of_length_le hlen]
  rw [List.set_append_right _ _ (le_of_eq hW)]
  rw [hW, Nat.sub_self, List.set_cons_zero]

lemma replyUpdate_eq (buffer new_reply : List Char) (hc : 1 ≤ buffer.length) :
    replyUpdate buffer new_reply =
      (cstr new_reply).take (buffer.length - 1)
        ++ List.replicate ((buffer.length - 1) - (cstr new_reply).length) NUL
        ++ [NUL] := by
  set L := buffer.length with hL
  set s := cstr new_reply with hs
  have hW : (s.take L ++ List.replicate (L - s.length) NUL).length = L := by
    simp only [List.length_append, List.length_take, List.length_replicate]
    omega
  unfold replyUpdate strncpy
  rw [← hs, ← hL]
  rw [List.drop_of_length_le (le_of_eq hL.symm), List.append_nil,
    List.take_of_length_le (le_of_eq hW)]
  rw [List.set_eq_take_cons_drop NUL (show L - 1 <
    (s.take L ++ List.replicate (L - s.length) NUL).length by rw [hW]; omega)]
  rw [List.drop_of_length_le (by rw [hW]; omega)]
  rw [List.take_append_eq_append_take, List.take_take, List.take_replicate]
  have h1 : (L - 1) ⊓ L = L - 1 := by omega
  have h2 : (L - 1 - (List.take L s).length) ⊓ (L - s.length) = L - 1 - s.length := by
    simp only [List.length_take]
    omega
  rw [h1, h2]

lemma storedContent_form (p : List Char) (k : Nat) (hp : NUL ∉ p) :
    storedContent (p ++ List.replicate k NUL ++ [NUL]) = p := by
  unfold storedContent
  rw [List.append_assoc, List.takeWhile_append_of_pos (all_bne_of_not_mem hp)]
  have h0 : (List.replicate k NUL ++ [NUL]).takeWhile (fun b => b != NUL) = [] := by
    cases k <;> simp [List.replicate]
  rw [h0, List.append_nil]

lemma getElem_form (p : List Char) (k : Nat) :
    (p ++ List.replicate k NUL ++ [NUL])[p.length]? = some NUL := by
  rw [List.append_assoc, List.getElem?_append_right (le_refl _), Nat.sub_self]
  cases k <;> simp [List.replicate]

lemma protectedUpdate_eq_of_not_mem {buffer P : List Char}
    (hc : 1 ≤ buffer.length) (hP : NUL ∉ P) :
    protectedUpdate buffer P =
      P.take (buffer.length - 1)
        ++ List.replicate ((buffer.length - 1) - P.length) NUL ++ [NUL] := by
  rw [protectedUpdate_eq buffer P hc, cstr_of_not_mem hP]

lemma replyUpdate_eq_of_not_mem {buffer P : List Char}
    (hc : 1 ≤ buffer.length) (hP : NUL ∉ P) :
    replyUpdate buffer P =
      P.take (buffer.length - 1)
        ++ List.replicate ((buffer.length - 1) - P.length) NUL ++ [NUL] := by
  rw [replyUpdate_eq buffer P hc, cstr_of_not_mem hP]

lemma update_props (buffer P u : List Char) (hc : 1 ≤ buffer.length) (hP : NUL ∉ P)
    (hu : u = P.take (buffer.length - 1)
      ++ List.replicate ((buffer.length - 1) - P.length) NUL ++ [NUL]) :
    u.length = buffer.length ∧
    storedContent u = P.take (buffer.length - 1) ∧
    (P.length < buffer.length → storedContent u = P) ∧
    (storedContent u).length ≤ buffer.length - 1 ∧
    u[(storedContent u).length]? = some NUL := by
  have hPtake : NUL ∉ P.take (buffer.length - 1) :=
    fun hmem => hP (List.take_subset _ _ hmem)
  have hcontent : storedContent u = P.take (buffer.length - 1) := by
    rw [hu]
    exact storedContent_form _ _ hPtake
  refine ⟨?_, hcontent, ?_, ?_, ?_⟩
  · rw [hu]
    simp only [List.length_append, List.length_take, List.length_replicate,
      List.length_cons, List.length_nil]
    omega
  · intro hlt
    rw [hcontent, List.take_of_length_le (by omega)]
  · rw [hcontent]
    simp only [List.length_take]
    omega
  · rw [hcontent, hu]
    exact getElem_form _ _

/-- C1: for every payload P free of NUL bytes, both PublishedBuffer
update operations (ProtectedDimService::update, DimServices.cpp:11-19,
and ReplyService::update, DimServices.cpp:27-33) leave the buffer the
same length (no write past the buffer bound), null-terminated within
its capacity, holding at most `capacity - 1` payload bytes: the stored
C-string content is the prefix of P of length `capacity - 1`, hence
exactly P whenever `P.length < capacity`. -/
theorem publishedBuffer_update_truncates (buffer P : List Char)
    (hc : 1 ≤ buffer.length) (hP : NUL ∉ P) :
    ((protectedUpdate buffer P).length = buffer.length ∧
      storedContent (protectedUpdate buffer P) = P.take (buffer.length - 1) ∧
      (P.length < buffer.length → storedContent (protectedUpdate buffer P) = P) ∧
      (storedContent (protectedUpdate buffer P)).length ≤ buffer.length - 1 ∧
      (protectedUpdate buffer P)[(storedContent (protectedUpdate buffer P)).length]?
        = some NUL) ∧
    ((replyUpdate buffer P).length = buffer.length ∧
      storedContent (replyUpdate buffer P) = P.take (buffer.length - 1) ∧
      (P.length < buffer.length → storedContent (replyUpdate buffer P) = P) ∧
      (storedContent (replyUpdate buffer P)).length ≤ buffer.length - 1 ∧
      (replyUpdate buffer P)[(storedContent (replyUpdate buffer P)).length]?
        = some NUL) :=
  ⟨update_props buffer P _ hc hP (protectedUpdate_eq_of_not_mem hc hP),
   update_props buffer P _ hc hP (replyUpdate_eq_of_not_mem hc hP)⟩

/-- Witness for C1 at a concrete buffer of capacity 6: a short payload
is stored exactly, a long payload is truncated to 5 bytes. -/
theorem publishedBuffer_update_truncates_witness :
    (1 ≤ ("xxxxxx".data).length ∧ NUL ∉ "abc".data ∧ NUL ∉ "abcdefgh".data) ∧
    storedContent (protectedUpdate "xxxxxx".data "abc".data) = "abc".data ∧
    storedContent (replyUpdate "xxxxxx".data "abc".data) = "abc".data ∧
    storedContent (protectedUpdate "xxxxxx".data "abcdefgh".data) = "abcde".data ∧
    storedContent (replyUpdate "xxxxxx".data "abcdefgh".data) = "abcde".data :=
  ⟨⟨by decide, by decide, by decide⟩,
    (publishedBuffer_update_truncates "xxxxxx".data "abc".data
      (by decide) (by decide)).1.2.2.1 (by decide),
    (publishedBuffer_update_truncates "xxxxxx".data "abc".data
      (by decide) (by decide)).2.2.2.1 (by decide),
    by
      have h := (publishedBuffer_update_truncates "xxxxxx".data "abcdefgh".data
        (by decide) (by decide)).1.2.1
      rw [h]
      decide,
    by
      have h := (publishedBuffer_update_truncates "xxxxxx".data "abcdefgh".data
        (by decide) (by decide)).2.2.1
      rw [h]
      decide⟩

end DimServer

namespace DimServer

lemma storedContent_replyUpdate {buffer msg : List Char} (hm : NUL ∉ msg)
    (hlt : msg.length < buffer.length) :
    storedContent (replyUpdate buffer msg) = msg :=
  (update_props buffer msg _ (by omega) hm
    (replyUpdate_eq_of_not_mem (by omega) hm)).2.2.1 hlt

/-- C9: stop() is idempotent — a second stop() after a first, and the
destructor running after stop(), change nothing further — and when the
communicator is running, stop() clears the running flag and joins both
loop threads (ZMQCommunicator.cpp:57-63,32-34). -/
theorem stop_idempotent (st : LifecycleState) :
    stop (stop st) = stop st ∧
    destructor (stop st) = stop st ∧
    (st.running = true →
      (stop st).running = false ∧
      (stop st).router_joinable = false ∧
      (stop st).sub_joinable = false) := by
  rcases st with ⟨r, rj, sj⟩
  cases r <;> cases rj <;> cases sj <;> exact ⟨by decide, by decide, by decide⟩

/-- Witness for C9 at the running state with both threads joinable. -/
theorem stop_idempotent_witness :
    (LifecycleState.mk true true true).running = true ∧
    stop (stop (LifecycleState.mk true true true)) =
      stop (LifecycleState.mk true true true) ∧
    (stop (LifecycleState.mk true true true)).running = false :=
  ⟨by decide, (stop_idempotent (LifecycleState.mk true true true)).1,
    ((stop_idempotent (LifecycleState.mk true true true)).2.2 (by decide)).1⟩

/-- C5: send_command with no observed worker identity transmits
nothing, stores the not-connected error text in the ReplyService
buffer, and returns normally — the branch is ordinary control flow,
no exception reaches the DIM command callback
(ZMQCommunicator.cpp:65-75). -/
theorem sendCommand_notConnected (st : GatewayState) (json_str : List Char)
    (hid : st.python_client_id = [])
    (hcap : ("Error: Python client not connected.".data).length <
      st.reply_buffer.length) :
    (sendCommand st json_str).sent = st.sent ∧
    storedContent (sendCommand st json_str).reply_buffer =
      "Error: Python client not connected.".data ∧
    (sendCommand st json_str).python_client_id = st.python_client_id ∧
    (sendCommand st json_str).state_buffer = st.state_buffer ∧
    (sendCommand st json_str).timediv_buffer = st.timediv_buffer ∧
    (sendCommand st json_str).waveform_buffers = st.waveform_buffers := by
  have hbody : sendCommand st json_str =
      { st with reply_buffer :=
          replyUpdate st.reply_buffer "Error: Python client not connected.".data } := by
    simp only [sendCommand, hid, List.length_nil, if_pos]
  refine ⟨by rw [hbody], ?_, by rw [hbody], by rw [hbody], by rw [hbody], by rw [hbody]⟩
  rw [hbody]
  exact storedContent_replyUpdate (by decide) hcap

/-- Witness for C5 at the sample state (identity never observed). -/
theorem sendCommand_notConnected_witness :
    (sampleState.python_client_id = [] ∧
      ("Error: Python client not connected.".data).length <
        sampleState.reply_buffer.length) ∧
    (sendCommand sampleState "cmd".data).sent = sampleState.sent ∧
    storedContent (sendCommand sampleState "cmd".data).reply_buffer =
      "Error: Python client not connected.".data :=
  ⟨⟨by decide, by decide⟩,
    (sendCommand_notConnected sampleState "cmd".data (by decide) (by decide)).1,
    (sendCommand_notConnected sampleState "cmd".data (by decide) (by decide)).2.1⟩

/-- C8: a command-channel frame whose payload fails JSON decoding is
caught (the body is a total function of the decode outcome), writes
the generic parse-error message to the ReplyService buffer, and the
receive loop goes on to process every later frame — the fold over the
remaining frames is untouched (ZMQCommunicator.cpp:98-100). -/
theorem routerLoop_malformed (st : GatewayState) (identity : List Char)
    (rest : List (List Char × Option InEnvelope))
    (hcap : ("Error: Malformed JSON from Python.".data).length <
      st.reply_buffer.length) :
    routerRun st ((identity, none) :: rest) =
      routerRun (routerBody st identity none) rest ∧
    storedContent (routerBody st identity none).reply_buffer =
      "Error: Malformed JSON from Python.".data ∧
    (routerBody st identity none).python_client_id = identity := by
  refine ⟨rfl, ?_, rfl⟩
  show storedContent (replyUpdate st.reply_buffer
    "Error: Malformed JSON from Python.".data) = _
  exact storedContent_replyUpdate (by decide) hcap

/-- Witness for C8 at the sample state followed by one healthy frame. -/
theorem routerLoop_malformed_witness :
    ("Error: Malformed JSON from Python.".data).length <
      sampleState.reply_buffer.length ∧
    routerRun sampleState [("w".data, none), ("w".data, some (InEnvelope.mk
        (some "handshake".data) none none none))] =
      routerRun (routerBody sampleState "w".data none) [("w".data, some (InEnvelope.mk
        (some "handshake".data) none none none))] ∧
    storedContent (routerBody sampleState "w".data none).reply_buffer =
      "Error: Malformed JSON from Python.".data :=
  ⟨by decide,
    (routerLoop_malformed sampleState "w".data [("w".data, some (InEnvelope.mk
      (some "handshake".data) none none none))] (by decide)).1,
    (routerLoop_malformed sampleState "w".data [("w".data, some (InEnvelope.mk
      (some "handshake".data) none none none))] (by decide)).2.1⟩

/-- C6: an inbound command-channel payload decoding to an envelope
with `type = "reply"` updates the ReplyService buffer with the
`payload` field (default "[empty]") when `status = "ok"`, and with the
`message` field (default "[no msg]") prefixed by the error marker
"Error: " for any other status (ZMQCommunicator.cpp:91-96); the stored
content equals that text whenever it fits the buffer (a longer text is
truncated per the PublishedBuffer contract). -/
theorem routerReply_updatesReplySink (st : GatewayState) (identity : List Char)
    (j : InEnvelope) (hty : jvalue j.type [] = "reply".data) :
    (jvalue j.status [] = "ok".data →
      NUL ∉ jvalue j.payload "[empty]".data →
      (jvalue j.payload "[empty]".data).length < st.reply_buffer.length →
      storedContent (routerBody st identity (some j)).reply_buffer =
        jvalue j.payload "[empty]".data) ∧
    (jvalue j.status [] ≠ "ok".data →
      NUL ∉ "Error: ".data ++ jvalue j.message "[no msg]".data →
      ("Error: ".data ++ jvalue j.message "[no msg]".data).length <
        st.reply_buffer.length →
      storedContent (routerBody st identity (some j)).reply_buffer =
        "Error: ".data ++ jvalue j.message "[no msg]".data) := by
  have hne : jvalue j.type [] ≠ "handshake".data := by
    rw [hty]
    decide
  constructor
  · intro hok hnul hlt
    simp only [routerBody, if_neg hne, if_pos hty, if_pos hok]
    exact storedContent_replyUpdate hnul hlt
  · intro hok hnul hlt
    simp only [routerBody, if_neg hne, if_pos hty, if_neg hok]
    exact storedContent_replyUpdate hnul hlt

/-- Witness for C6 at the two scenarios of the specification:
an ok reply carrying "3.14" and an error reply carrying "bad range". -/
theorem routerReply_updatesReplySink_witness :
    (jvalue (InEnvelope.mk (some "reply".data) (some "ok".data)
        (some "3.14".data) none).type [] = "reply".data ∧
      storedContent (routerBody sampleState "w".data (some (InEnvelope.mk
          (some "reply".data) (some "ok".data) (some "3.14".data) none))).reply_buffer =
        jvalue (some "3.14".data) "[empty]".data) ∧
    (jvalue (InEnvelope.mk (some "reply".data) (some "error".data) none
        (some "bad range".data)).type [] = "reply".data ∧
      storedContent (routerBody sampleState "w".data (some (InEnvelope.mk
          (some "reply".data) (some "error".data) none
          (some "bad range".data)))).reply_buffer =
        "Error: ".data ++ jvalue (some "bad range".data) "[no msg]".data) :=
  ⟨⟨by decide,
    (routerReply_updatesReplySink sampleState "w".data
      (InEnvelope.mk (some "reply".data) (some "ok".data) (some "3.14".data) none)
      (by decide)).1 (by decide) (by decide) (by decide)⟩,
   ⟨by decide,
    (routerReply_updatesReplySink sampleState "w".data
      (InEnvelope.mk (some "reply".data) (some "error".data) none
        (some "bad range".data))
      (by decide)).2 (by decide) (by decide) (by decide)⟩⟩

end DimServer

namespace DimServer

lemma digitVal_digitChar {d : Nat} (h : d < 10) : digitVal (digitChar d) = d := by
  interval_cases d <;> decide

lemma digitsVal_snoc (a : List Char) (c : Char) :
    digitsVal (a ++ [c]) = digitsVal a * 10 + digitVal c := by
  simp [digitsVal, List.foldl_append]

lemma digitsVal_toDecimalAux (fuel n : Nat) (h : n < fuel) :
    digitsVal (toDecimalAux fuel n) = n := by
  induction fuel generalizing n with
  | zero => omega
  | succ fuel ih =>
    rw [toDecimalAux]
    split
    · next hlt =>
      simp only [digitsVal, List.foldl_cons, List.foldl_nil, Nat.zero_mul, Nat.zero_add]
      exact digitVal_digitChar hlt
    · next hge =>
      rw [digitsVal_snoc, ih (n / 10) (by omega),
        digitVal_digitChar (Nat.mod_lt _ (by omega))]
      omega

lemma digitsVal_toDecimal (n : Nat) : digitsVal (toDecimal n) = n :=
  digitsVal_toDecimalAux (n + 1) n (by omega)

lemma toDecimal_injective {a b : Nat} (h : toDecimal a = toDecimal b) : a = b := by
  have h2 := congrArg digitsVal h
  rwa [digitsVal_toDecimal, digitsVal_toDecimal] at h2

/-- C4 counterexample: the raw passthrough handler invoked with the
query text "v?" chooses the outward command `raw_query`, yet its `id`
is "raw_cmd_0" — the fixed literal "raw_cmd", not the outward (Python)
command name, followed by the counter (CommandHandlers.cpp:33-37). -/
theorem rawHandler_id_counterexample :
    (rawHandler "v?".data 0).1.command = PY_RAW_QUERY ∧
    (rawHandler "v?".data 0).1.id = "raw_cmd_0".data ∧
    (rawHandler "v?".data 0).1.id ≠ PY_RAW_QUERY ++ '_' :: toDecimal 0 ∧
    (rawHandler "v?".data 0).1.id ≠ PY_RAW_WRITE ++ '_' :: toDecimal 0 := by
  refine ⟨by decide, by decide, by decide, by decide⟩

/-- C4 amended: a FlexibleJsonCommand envelope's id is the outward
Python command name, an underscore and the per-object counter; the raw
passthrough envelope's id instead uses the fixed prefix "raw_cmd"
whatever outward command is chosen; for both handlers two back-to-back
invocations yield distinct ids whose numeric suffixes are the counter
and the counter plus one, strictly increasing
(CommandHandlers.cpp:16-24,30-43). -/
theorem commandId_monotonic {P : Type} (name : List Char) (p1 p2 : P)
    (text1 text2 : List Char) (c : Nat) :
    ((flexibleHandler name p1 c).1.id = name ++ '_' :: toDecimal c ∧
      (flexibleHandler name p1 c).2 = c + 1 ∧
      (flexibleHandler name p2 (flexibleHandler name p1 c).2).1.id =
        name ++ '_' :: toDecimal (c + 1) ∧
      (flexibleHandler name p1 c).1.id ≠
        (flexibleHandler name p2 (flexibleHandler name p1 c).2).1.id ∧
      digitsVal (toDecimal c) < digitsVal (toDecimal (c + 1))) ∧
    ((rawHandler text1 c).1.id = "raw_cmd_".data ++ toDecimal c ∧
      (rawHandler text1 c).2 = c + 1 ∧
      (rawHandler text2 (rawHandler text1 c).2).1.id =
        "raw_cmd_".data ++ toDecimal (c + 1) ∧
      (rawHandler text1 c).1.id ≠ (rawHandler text2 (rawHandler text1 c).2).1.id ∧
      digitsVal (toDecimal c) < digitsVal (toDecimal (c + 1))) := by
  have hsuffix : digitsVal (toDecimal c) < digitsVal (toDecimal (c + 1)) := by
    rw [digitsVal_toDecimal, digitsVal_toDecimal]
    omega
  have hdistinct : toDecimal c ≠ toDecimal (c + 1) := by
    intro h
    exact absurd (toDecimal_injective h) (by omega)
  refine ⟨⟨rfl, rfl, rfl, ?_, hsuffix⟩, ⟨rfl, rfl, rfl, ?_, hsuffix⟩⟩
  · intro h
    simp only [flexibleHandler] at h
    rw [List.append_right_inj, List.cons_eq_cons] at h
    exact hdistinct h.2
  · intro h
    simp only [rawHandler] at h
    rw [List.append_right_inj] at h
    exact hdistinct h

end DimServer

namespace DimServer

lemma waveform_topic_ne_state (s : List Char) :
    ZMQ_WAVEFORM_TOPIC_BASE ++ s ≠ ZMQ_STATE_TOPIC := by
  intro h
  have h0 : (ZMQ_WAVEFORM_TOPIC_BASE ++ s)[0]? = ZMQ_STATE_TOPIC[0]? := by rw [h]
  rw [List.getElem?_append_left (by decide)] at h0
  exact absurd h0 (by decide)

lemma waveform_topic_ne_timediv (s : List Char) :
    ZMQ_WAVEFORM_TOPIC_BASE ++ s ≠ ZMQ_TIMEDIV_TOPIC := by
  intro h
  have h0 : (ZMQ_WAVEFORM_TOPIC_BASE ++ s)[9]? = ZMQ_TIMEDIV_TOPIC[9]? := by rw [h]
  rw [List.getElem?_append_left (by decide)] at h0
  exact absurd h0 (by decide)

lemma waveform_prefix_matches (s : List Char) :
    ZMQ_WAVEFORM_TOPIC_BASE.isPrefixOf (ZMQ_WAVEFORM_TOPIC_BASE ++ s) = true := by
  rw [List.isPrefixOf_iff_prefix]
  exact List.prefix_append _ _

lemma subscribeBody_waveform (st : GatewayState) (s payload : List Char) :
    subscribeBody st (ZMQ_WAVEFORM_TOPIC_BASE ++ s) payload =
      match stoi s with
      | none => { st with errLog :=
          st.errLog ++ [topicErrorLine (ZMQ_WAVEFORM_TOPIC_BASE ++ s)] }
      | some v =>
        if 0 ≤ v - 1 ∧ v - 1 < (OSC_NUM_CHANNELS : Int) then
          { st with waveform_buffers := (st.waveform_buffers.set (v - 1).toNat
              (protectedUpdate (st.waveform_buffers.getD (v - 1).toNat []) payload)) }
        else st := by
  rw [subscribeBody, if_neg (waveform_topic_ne_state s),
    if_neg (waveform_topic_ne_timediv s)]
  rw [if_pos (waveform_prefix_matches s), List.drop_left]

/-- C2 counterexample: with N = 4 channels, the frame
`("waveform_ch9", "x")` is dropped with NO log entry — `std::stoi`
parses 9 without an exception and the bounds check at
ZMQCommunicator.cpp:125 fails silently — while the claim (and the
spec scenario) demand one logged error containing the topic. -/
theorem subscribe_unroutable_counterexample :
    subscribeBody sampleState "waveform_ch9".data "x".data = sampleState ∧
    (subscribeBody sampleState "waveform_ch9".data "x".data).errLog = [] := by
  refine ⟨by decide, by decide⟩

/-- C2 amended: a waveform-prefixed topic whose suffix makes
`std::stoi` throw (no leading digits, or out of `int` range) is
dropped with no buffer change and one stderr line containing the
offending topic; a suffix that parses to `v` with `v - 1` outside
`[0, N)` is dropped with no buffer change and NO log line; the
routing-loop body is a total function, so neither case crashes the
loop (ZMQCommunicator.cpp:119-133). -/
theorem subscribe_unroutable (st : GatewayState) (s payload : List Char) :
    (stoi s = none →
      subscribeBody st (ZMQ_WAVEFORM_TOPIC_BASE ++ s) payload =
        { st with errLog :=
            st.errLog ++ [topicErrorLine (ZMQ_WAVEFORM_TOPIC_BASE ++ s)] }) ∧
    (∀ v : Int, stoi s = some v →
      ¬(0 ≤ v - 1 ∧ v - 1 < (OSC_NUM_CHANNELS : Int)) →
      subscribeBody st (ZMQ_WAVEFORM_TOPIC_BASE ++ s) payload = st) := by
  constructor
  · intro hnone
    rw [subscribeBody_waveform, hnone]
  · intro v hsome hrange
    rw [subscribeBody_waveform, hsome]
    exact if_neg hrange

/-- Witness for C2 amended: suffix "abc" raises (one log line, nothing
else changes); suffix "9" parses but is out of range (state unchanged,
no log line). -/
theorem subscribe_unroutable_witness :
    (stoi "abc".data = none ∧
      subscribeBody sampleState (ZMQ_WAVEFORM_TOPIC_BASE ++ "abc".data) "x".data =
        { sampleState with errLog := sampleState.errLog ++
            [topicErrorLine (ZMQ_WAVEFORM_TOPIC_BASE ++ "abc".data)] }) ∧
    (stoi "9".data = some 9 ∧
      ¬(0 ≤ (9 : Int) - 1 ∧ (9 : Int) - 1 < (OSC_NUM_CHANNELS : Int)) ∧
      subscribeBody sampleState (ZMQ_WAVEFORM_TOPIC_BASE ++ "9".data) "x".data =
        sampleState) :=
  ⟨⟨by decide, (subscribe_unroutable sampleState "abc".data "x".data).1 (by decide)⟩,
   ⟨by decide, by decide,
     (subscribe_unroutable sampleState "9".data "x".data).2 9 (by decide) (by decide)⟩⟩

/-- C3 counterexample: the topic "waveform_ch2junk" is not a fixed
topic and not `<prefix><k>` for any integer k, so the claim says it
changes no buffer; but `std::stoi("2junk")` returns 2 and the payload
lands in channel buffer 1 (zero-based), whose content becomes "hi". -/
theorem subscribe_route_counterexample :
    subscribeBody sampleState "waveform_ch2junk".data "hi".data ≠ sampleState ∧
    storedContent ((subscribeBody sampleState "waveform_ch2junk".data
      "hi".data).waveform_buffers.getD 1 []) = "hi".data := by
  refine ⟨by decide, by decide⟩

/-- C3 amended: the two fixed topics update their fixed buffers by
exact match, checked before the prefix rule; a waveform-prefixed topic
whose suffix `std::stoi`-parses to k with 1 ≤ k ≤ N — the canonical
topics `<prefix><k>`, but also any suffix with leading digits k and
trailing garbage — delivers the payload to channel buffer k-1; prefix
topics parsing outside [1, N] or not at all, and unknown topics,
change no buffer (ZMQCommunicator.cpp:113-133). -/
theorem subscribe_routes (st : GatewayState) (s payload : List Char) :
    (subscribeBody st ZMQ_STATE_TOPIC payload =
      { st with state_buffer := protectedUpdate st.state_buffer payload }) ∧
    (subscribeBody st ZMQ_TIMEDIV_TOPIC payload =
      { st with timediv_buffer := protectedUpdate st.timediv_buffer payload }) ∧
    (∀ k : Int, stoi s = some k → 1 ≤ k → k ≤ (OSC_NUM_CHANNELS : Int) →
      subscribeBody st (ZMQ_WAVEFORM_TOPIC_BASE ++ s) payload =
        { st with waveform_buffers := (st.waveform_buffers.set (k - 1).toNat
            (protectedUpdate (st.waveform_buffers.getD (k - 1).toNat []) payload)) }) := by
  refine ⟨?_, ?_, ?_⟩
  · rw [subscribeBody, if_pos rfl]
  · rw [subscribeBody, if_neg (by decide), if_pos rfl]
  · intro k hsome h1 h4
    rw [subscribeBody_waveform, hsome]
    exact if_pos ⟨by omega, by omega⟩

/-- Witness for C3 at the spec scenario: `("waveform_ch3",
"1.0;2.0;3.0")` with N = 4 lands in channel buffer 2. -/
theorem subscribe_routes_witness :
    (stoi "3".data = some 3 ∧ 1 ≤ (3 : Int) ∧ (3 : Int) ≤ (OSC_NUM_CHANNELS : Int)) ∧
    subscribeBody sampleState (ZMQ_WAVEFORM_TOPIC_BASE ++ "3".data)
        "1.0;2.0;3.0".data =
      { sampleState with waveform_buffers := (sampleState.waveform_buffers.set
          ((3 : Int) - 1).toNat
          (protectedUpdate (sampleState.waveform_buffers.getD ((3 : Int) - 1).toNat [])
            "1.0;2.0;3.0".data)) } ∧
    storedContent ((subscribeBody sampleState (ZMQ_WAVEFORM_TOPIC_BASE ++ "3".data)
      "1.0;2.0;3.0".data).waveform_buffers.getD 2 []) = "1.0;2.0;3.0".data :=
  ⟨⟨by decide, by decide, by decide⟩,
    (subscribe_routes sampleState "3".data "1.0;2.0;3.0".data).2.2 3
      (by decide) (by decide) (by decide),
    by decide⟩

end DimServer

namespace DimServer

/-- Witness for C4 (amended) at the trigger-level spec and the raw
passthrough, both at counter 0: the ids read as stated and the
back-to-back ids differ. -/
theorem commandId_monotonic_witness :
    (flexibleHandler "set_trigger_level".data
        ([] : List (List Char × List Char)) 0).1.id =
      "set_trigger_level".data ++ '_' :: toDecimal 0 ∧
    (flexibleHandler "set_trigger_level".data ([] : List (List Char × List Char))
        0).1.id ≠
      (flexibleHandler "set_trigger_level".data ([] : List (List Char × List Char))
        (flexibleHandler "set_trigger_level".data
          ([] : List (List Char × List Char)) 0).2).1.id ∧
    (rawHandler "v?".data 0).1.id ≠
      (rawHandler "v?".data (rawHandler "v?".data 0).2).1.id :=
  ⟨(commandId_monotonic "set_trigger_level".data
      ([] : List (List Char × List Char)) ([] : List (List Char × List Char))
      "v?".data "v?".data 0).1.1,
   (commandId_monotonic "set_trigger_level".data
      ([] : List (List Char × List Char)) ([] : List (List Char × List Char))
      "v?".data "v?".data 0).1.2.2.2.1,
   (commandId_monotonic "set_trigger_level".data
      ([] : List (List Char × List Char)) ([] : List (List Char × List Char))
      "v?".data "v?".data 0).2.2.2.2.1⟩

/-- C7: the raw-passthrough handler always stamps `type = "command"`;
legacy text containing the query marker `?` goes out as the
`raw_query` command with the text under `params.query`, text without
it as `raw_write` with the text under `params.command`
(CommandHandlers.cpp:30-43). -/
theorem rawHandler_classification (cmd_text : List Char) (counter : Nat) :
    (rawHandler cmd_text counter).1.type = some "command".data ∧
    ('?' ∈ cmd_text →
      (rawHandler cmd_text counter).1.command = PY_RAW_QUERY ∧
      (rawHandler cmd_text counter).1.params = [("query".data, cmd_text)]) ∧
    ('?' ∉ cmd_text →
      (rawHandler cmd_text counter).1.command = PY_RAW_WRITE ∧
      (rawHandler cmd_text counter).1.params = [("command".data, cmd_text)]) := by
  refine ⟨rfl, ?_, ?_⟩ <;> intro h <;> constructor <;> simp [rawHandler, h]

/-- Witness for C7 at the query "*IDN?" and the write "*RST". -/
theorem rawHandler_classification_witness :
    ('?' ∈ "*IDN?".data ∧
      (rawHandler "*IDN?".data 0).1.command = PY_RAW_QUERY ∧
      (rawHandler "*IDN?".data 0).1.params = [("query".data, "*IDN?".data)]) ∧
    ('?' ∉ "*RST".data ∧
      (rawHandler "*RST".data 0).1.command = PY_RAW_WRITE ∧
      (rawHandler "*RST".data 0).1.params = [("command".data, "*RST".data)]) :=
  ⟨⟨by decide, (rawHandler_classification "*IDN?".data 0).2.1 (by decide)⟩,
   ⟨by decide, (rawHandler_classification "*RST".data 0).2.2 (by decide)⟩⟩

end DimServer

namespace DimServer

lemma routerBodyJson_agrees (st : GatewayState) (identity : List Char)
    (j : InEnvelope) :
    routerBodyJson st identity (some j.toDoc) =
      some (routerBody st identity (some j)) := by
  rcases j with ⟨ty, stt, pl, ms⟩
  cases ty <;> cases stt <;> cases pl <;> cases ms <;>
    simp [routerBodyJson, routerBody, InEnvelope.toDoc, strField, jvalueDoc, jvalue] <;>
    split_ifs <;> rfl

/-- C10 counterexample: the payloads decoding to the JSON object with
a numeric `type` field (such as the five bytes of a frame carrying the
object with `type` = 123) and to a non-object JSON value both fall
under the claim's premise — valid JSON, `type` neither "handshake" nor
"reply" — yet neither is silently ignored: the first `j.value(type)`
read throws `json::type_error`, the catch at ZMQCommunicator.cpp:98
handles only `json::parse_error`, and the router thread dies instead
of continuing with the state the claim predicts. -/
theorem routerBody_typeError_counterexample :
    routerBodyJson sampleState "w".data
        (some (JsonDoc.obj { type := JsonField.other })) = none ∧
    routerBodyJson sampleState "w".data (some JsonDoc.nonObject) = none ∧
    routerBodyJson sampleState "w".data
        (some (JsonDoc.obj { type := JsonField.other })) ≠
      some { sampleState with python_client_id := "w".data } := by
  refine ⟨rfl, rfl, by decide⟩

/-- C10 corrected: a command-channel payload that decodes to a JSON
object whose `type` field is absent, or holds a string other than
"handshake" and "reply", is silently ignored — the iteration completes
leaving every buffer unchanged, with only the identity slot
overwritten by the frame's identity part; but a payload decoding to a
non-object JSON value, or to an object whose `type` field is present
with a non-string type, makes `j.value` throw `json::type_error`,
which the `json::parse_error`-only catch at ZMQCommunicator.cpp:98
does not catch — the router thread terminates instead of ignoring the
frame. -/
theorem routerBodyJson_unknownType (st : GatewayState) (identity : List Char)
    (o : JsonObject) :
    (o.type = JsonField.absent →
      routerBodyJson st identity (some (JsonDoc.obj o)) =
        some { st with python_client_id := identity }) ∧
    (∀ ty : List Char, o.type = JsonField.str ty →
      ty ≠ "handshake".data → ty ≠ "reply".data →
      routerBodyJson st identity (some (JsonDoc.obj o)) =
        some { st with python_client_id := identity }) ∧
    (o.type = JsonField.other →
      routerBodyJson st identity (some (JsonDoc.obj o)) = none) ∧
    routerBodyJson st identity (some JsonDoc.nonObject) = none := by
  refine ⟨?_, ?_, ?_, rfl⟩
  · intro h
    simp only [routerBodyJson, jvalueDoc, h]
    rw [if_neg (by decide), if_neg (by decide)]
  · intro ty h h1 h2
    simp only [routerBodyJson, jvalueDoc, h]
    rw [if_neg h1, if_neg h2]
  · intro h
    simp only [routerBodyJson, jvalueDoc, h]

/-- Witness for C10 (amended) at three concrete envelopes: no `type`
field, a string `type` = "telemetry", and a non-string `type`. -/
theorem routerBodyJson_unknownType_witness :
    ((JsonObject.mk JsonField.absent JsonField.absent JsonField.absent
        JsonField.absent).type = JsonField.absent ∧
      routerBodyJson sampleState "w".data (some (JsonDoc.obj (JsonObject.mk
          JsonField.absent JsonField.absent JsonField.absent JsonField.absent))) =
        some { sampleState with python_client_id := "w".data }) ∧
    ((JsonObject.mk (JsonField.str "telemetry".data) JsonField.absent
        JsonField.absent JsonField.absent).type = JsonField.str "telemetry".data ∧
      "telemetry".data ≠ "handshake".data ∧ "telemetry".data ≠ "reply".data ∧
      routerBodyJson sampleState "w".data (some (JsonDoc.obj (JsonObject.mk
          (JsonField.str "telemetry".data) JsonField.absent JsonField.absent
          JsonField.absent))) =
        some { sampleState with python_client_id := "w".data }) ∧
    ((JsonObject.mk JsonField.other JsonField.absent JsonField.absent
        JsonField.absent).type = JsonField.other ∧
      routerBodyJson sampleState "w".data (some (JsonDoc.obj (JsonObject.mk
          JsonField.other JsonField.absent JsonField.absent JsonField.absent))) =
        none) :=
  ⟨⟨rfl, (routerBodyJson_unknownType sampleState "w".data (JsonObject.mk
      JsonField.absent JsonField.absent JsonField.absent JsonField.absent)).1 rfl⟩,
   ⟨rfl, by decide, by decide,
     (routerBodyJson_unknownType sampleState "w".data (JsonObject.mk
        (JsonField.str "telemetry".data) JsonField.absent JsonField.absent
        JsonField.absent)).2.1 "telemetry".data rfl (by decide) (by decide)⟩,
   ⟨rfl, (routerBodyJson_unknownType sampleState "w".data (JsonObject.mk
      JsonField.other JsonField.absent JsonField.absent JsonField.absent)).2.2.1 rfl⟩⟩

end DimServer
